import Mathlib

/-!
# Verification of the copy-trading order-derivation and session engine

Shallow embedding of the copy-trading core of the repository
(`src/copyTrading/session.ts`, `src/copyTrading/clobExecutor.ts`, and the
CLOB client wrapper / metadata resolver it imports).  JavaScript numbers
are modelled as exact rationals (`ℚ`); JS `Math.round` is round-half-up
(`⌊x + 1/2⌋`); fallible external calls (metadata resolution, order
submission) are passed in as explicit `Except` outcomes; the Discord
notification sink is modelled as a list of emitted notices.
-/

namespace CopyBot

/-- JS `Math.round`: round half toward positive infinity. -/
def jsRound (x : ℚ) : ℤ := Int.floor (x + 1/2)

/-- Function `roundDown`: truncate (floor) at `n` decimal places,
as used by the CLOB SDK rounding rules quoted in the repository docs. -/
def roundDown (x : ℚ) (n : ℕ) : ℚ := (Int.floor (x * 10 ^ n) : ℚ) / 10 ^ n

/-- Trade side, BUY or SELL. -/
inductive Side where
  | BUY
  | SELL
deriving DecidableEq, Repr

/-- Order type, FOK, FAK or GTC (the session config restricts itself
to FOK/FAK but the executor and client accept all three). -/
inductive OrderKind where
  | FOK
  | FAK
  | GTC
deriving DecidableEq, Repr

/-- The CLOB tick sizes accepted by `createMarketOrder`
(`"0.1" | "0.01" | "0.001" | "0.0001"`). -/
inductive TickSize where
  | t1
  | t2
  | t3
  | t4
deriving DecidableEq, Repr

/-- Numeric value of a tick size (`parseFloat(metadata.tickSize)`). -/
def TickSize.val : TickSize → ℚ
  | .t1 => 1/10
  | .t2 => 1/100
  | .t3 => 1/1000
  | .t4 => 1/10000

/-- Record `ActivityTrade` — the fields of the feed event the core reads. -/
structure ActivityTrade where
  transactionHash : String
  traderAddress : String
  side : Side
  outcome : String
  marketSlug : String
  eventSlug : String
  price : ℚ
  size : ℚ
deriving DecidableEq, Repr

/-- Record `CopyTradingConfig` (clobExecutor.ts). -/
structure CopyTradingConfig where
  sizeScale : ℚ
  maxSizePerTrade : ℚ
  minTradeSize : ℚ
  maxSlippage : ℚ
  orderType : OrderKind
deriving DecidableEq, Repr

/-- Record `MarketMetadata` resolved per (market, outcome) pair. -/
structure MarketMetadata where
  tokenID : String
  tickSize : TickSize
  negRisk : Bool
  question : String
  conditionId : String
deriving DecidableEq, Repr

/-- Record `OrderResponse` — the result record of the client wrapper. -/
structure OrderResponse where
  success : Bool
  orderId : Option String
  transactionHash : Option String
  error : Option String
  orderType : Option OrderKind
deriving DecidableEq, Repr

/-- Record `ExecutionResult` (clobExecutor.ts). -/
structure ExecutionResult where
  success : Bool
  copyUsdcAmount : ℚ
  orderResponse : Option OrderResponse
  error : Option String
deriving DecidableEq, Repr

/-! ## Sizing (clobExecutor.execute lines 47-54, session.handleTrade 296-301, 364-369) -/

/-- Leader notional, `trade.size * trade.price` (clobExecutor.ts:48). -/
def leaderNotional (trade : ActivityTrade) : ℚ := trade.size * trade.price

/-- Executor sizing (clobExecutor.ts:49-54): scale the leader notional and
clamp at `maxSizePerTrade`. -/
def copyUsdc (trade : ActivityTrade) (cfg : CopyTradingConfig) : ℚ :=
  let a := leaderNotional trade * cfg.sizeScale
  if a > cfg.maxSizePerTrade then cfg.maxSizePerTrade else a

/-! ## Slippage and tick rounding (clobExecutor.ts lines 72-90) -/

/-- Slippage-adjusted price before tick rounding (clobExecutor.ts:73-80). -/
def adjustedPriceRaw (side : Side) (price maxSlippage : ℚ) : ℚ :=
  match side with
  | .BUY => price * (1 + maxSlippage)
  | .SELL => price * (1 - maxSlippage)

/-- Adjusted price after tick rounding and clamping (clobExecutor.ts:82-87):
`Math.round(adjustedPrice / tickSize) * tickSize` then
`Math.max(0.01, Math.min(0.99, adjustedPrice))`. -/
def adjustedPrice (side : Side) (price maxSlippage tick : ℚ) : ℚ :=
  let p := (jsRound (adjustedPriceRaw side price maxSlippage / tick) : ℚ) * tick
  max (1/100) (min (99/100) p)

/-- Share size rounded for display and SELL/GTC orders (clobExecutor.ts:70,90):
`size = copyUsdcAmount / trade.price` then `Math.round(size * 100) / 100`. -/
def displaySize (trade : ActivityTrade) (cfg : CopyTradingConfig) : ℚ :=
  let size0 := copyUsdc trade cfg / trade.price
  (jsRound (size0 * 100) : ℚ) / 100

/-! ## Order construction and submission (client wrapper `placeOrder`) -/

/-- Record `PlaceOrderParams` (client wrapper). -/
structure PlaceOrderParams where
  tokenID : String
  side : Side
  price : ℚ
  size : ℚ
  tickSize : TickSize
  negRisk : Bool
  orderType : OrderKind
  usdcAmount : Option ℚ
deriving DecidableEq, Repr

/-- Arguments handed to `client.createMarketOrder` (placeOrder lines 266-273). -/
structure MarketOrderArgs where
  tokenID : String
  price : ℚ
  amount : ℚ
  side : Side
  feeRateBps : ℚ
deriving DecidableEq, Repr

/-- Options handed to `client.createMarketOrder` (placeOrder lines 275-278). -/
structure MarketOrderOptions where
  tickSize : TickSize
  negRisk : Bool
deriving DecidableEq, Repr

/-- Arguments handed to `client.createOrder` (placeOrder lines 284-291). -/
structure LimitOrderArgs where
  tokenID : String
  price : ℚ
  size : ℚ
  side : Side
  feeRateBps : ℚ
  expiration : ℤ
deriving DecidableEq, Repr

/-- What the router hands to the external signing capability: either the
market-order constructor with its (tickSize, negRisk) options, or the
limit-order constructor (which receives no such options). -/
inductive ConstructedOrder where
  | market (args : MarketOrderArgs) (opts : MarketOrderOptions)
  | limit (args : LimitOrderArgs)
deriving DecidableEq, Repr

/-- Order construction phase of `placeOrder` (client wrapper lines 251-294):
FOK/FAK go through `createMarketOrder` — amount is `usdcAmount` for BUY when
provided, else `size`; GTC goes through `createOrder` with `expiration: 0`. -/
def constructOrder (p : PlaceOrderParams) : ConstructedOrder :=
  if p.orderType = .FOK ∨ p.orderType = .FAK then
    let amount :=
      match p.side, p.usdcAmount with
      | .BUY, some u => u
      | _, _ => p.size
    .market ⟨p.tokenID, p.price, amount, p.side, 0⟩ ⟨p.tickSize, p.negRisk⟩
  else
    .limit ⟨p.tokenID, p.price, p.size, p.side, 0, 0⟩

/-- Tick size reaching the signing capability for a constructed order. -/
def routedTickSize : ConstructedOrder → Option TickSize
  | .market _ opts => some opts.tickSize
  | .limit _ => none

/-- Negative-risk flag reaching the signing capability for a constructed order. -/
def routedNegRisk : ConstructedOrder → Option Bool
  | .market _ opts => some opts.negRisk
  | .limit _ => none

/-- Shape of the raw `postOrder` response the wrapper classifies
(placeOrder lines 296-329).  `error` is the transport/HTTP-level error
message (already stringified), `errorMsg` the logical rejection message. -/
structure PostOrderResponse where
  error : Option String
  success : Bool
  orderID : Option String
  errorMsg : Option String
  transactionsHashes : List String
deriving DecidableEq, Repr

/-- Response classification in `placeOrder` (lines 299-329): transport error
first, then not-success / missing orderID (surfacing `errorMsg` with the
default as fallback), else success with orderID and first settlement hash. -/
def classifyPostResponse (resp : PostOrderResponse) (kind : OrderKind) : OrderResponse :=
  match resp.error with
  | some e => ⟨false, none, none, some e, some kind⟩
  | none =>
    if resp.success = false ∨ resp.orderID = none then
      ⟨false, none, none, some (resp.errorMsg.getD "Unknown error - no orderID returned"),
        some kind⟩
    else
      ⟨true, resp.orderID, resp.transactionsHashes.head?, none, some kind⟩

/-- JS `x || fallback` on strings (empty string is falsy). -/
def strOr (s fallback : String) : String := if s = "" then fallback else s

/-- Function `placeOrder` as a function of the try-block outcome: a thrown exception
(message) lands in the catch branch (lines 330-338), a returned response is
classified. -/
def placeOrderResult (p : PlaceOrderParams) (tryOut : Except String PostOrderResponse) :
    OrderResponse :=
  match tryOut with
  | .error msg => ⟨false, none, none, some (strOr msg "Unknown error"), some p.orderType⟩
  | .ok resp => classifyPostResponse resp p.orderType

/-! ## Executor pipeline (`ClobExecutor.execute`) -/

/-- Render a rational to exactly two decimals, JS `x.toFixed(2)` style
(used only to build the min-size error message). -/
def toFixed2 (x : ℚ) : String :=
  let n : ℤ := jsRound (x * 100)
  let whole := n / 100
  let frac := (n % 100).natAbs
  toString whole ++ "." ++ (if frac < 10 then "0" else "") ++ toString frac

/-- Render a rational the way JS prints a number (integers without a decimal
point, else an exact decimal expansion when one of ≤ 10 digits exists). -/
def jsNumberString (x : ℚ) : String :=
  match (List.range 11).find? (fun d => (x * 10 ^ d).den == 1) with
  | some 0 => toString x.num
  | some d =>
    let n := (x * 10 ^ d).num
    let base := (10 : ℤ) ^ d
    toString (n / base) ++ "." ++ toString (n % base).natAbs
  | none => toString x.num ++ "/" ++ toString x.den

/-- The "too small" rejection message (clobExecutor.ts:62). -/
def minSizeMsg (amt minTrade : ℚ) : String :=
  "Trade size $" ++ toFixed2 amt ++ " below minimum $" ++ jsNumberString minTrade

/-- Method `ClobExecutor.execute` (clobExecutor.ts:42-132) as a function of the
trade, config, and the outcomes of its two external calls: metadata
resolution (`marketResolver.resolve`, may throw) and `placeOrder` (may throw
before its own try block).  The surrounding `try/catch` maps any thrown
message to a `success=false, copyUsdcAmount=0` result (lines 124-131). -/
def execute (trade : ActivityTrade) (cfg : CopyTradingConfig)
    (resolveOut : Except String MarketMetadata)
    (placeOut : Except String OrderResponse) : ExecutionResult :=
  let amt := copyUsdc trade cfg
  if amt < cfg.minTradeSize then
    ⟨false, amt, none, some (minSizeMsg amt cfg.minTradeSize)⟩
  else
    match resolveOut with
    | .error msg => ⟨false, 0, none, some (strOr msg "Unknown execution error")⟩
    | .ok _ =>
      match placeOut with
      | .error msg => ⟨false, 0, none, some (strOr msg "Unknown execution error")⟩
      | .ok resp => ⟨resp.success, amt, some resp, resp.error⟩

/-- The `PlaceOrderParams` the executor builds (clobExecutor.ts:104-114):
`usdcAmount` is set exactly for FOK/FAK BUY orders. -/
def executorOrderParams (trade : ActivityTrade) (cfg : CopyTradingConfig)
    (metadata : MarketMetadata) : PlaceOrderParams :=
  { tokenID := metadata.tokenID
    side := trade.side
    price := adjustedPrice trade.side trade.price cfg.maxSlippage metadata.tickSize.val
    size := displaySize trade cfg
    tickSize := metadata.tickSize
    negRisk := metadata.negRisk
    orderType := cfg.orderType
    usdcAmount :=
      if (cfg.orderType = .FOK ∨ cfg.orderType = .FAK) ∧ trade.side = .BUY then
        some (copyUsdc trade cfg)
      else none }

/-- Modelled from the spec: the market-BUY precision normalizer.  The code
routes FOK/FAK BUY orders through the external SDK function `createMarketOrder`,
whose rounding is not part of the sources of this repository; spec §4.2 and
scenario 4 fix its behavior: round the USDC amount down to 2 decimals first,
then derive the share count from the rounded USDC and round it down to 4
decimals. -/
def marketBuyNormalize (usdc price : ℚ) : ℚ × ℚ :=
  let u2 := roundDown usdc 2
  let shares := roundDown (u2 / price) 4
  (u2, shares)

/-! ## Session state machine (`session.ts`) -/

/-- Record `SessionConfig` (session.ts:16-30). -/
structure SessionConfig where
  targetAddress : String
  channelId : String
  dryRun : Bool
  sizeScale : ℚ
  maxSizePerTrade : ℚ
  maxSlippage : ℚ
  minTradeSize : ℚ
  orderType : OrderKind
  categories : Option (List String)
  totalLimit : Option ℚ
  maxOdds : Option ℚ
  maxTotalPerMarket : Option ℚ
deriving DecidableEq, Repr

/-- Mutable per-session counters of `SessionState` (session.ts:32-39). -/
structure SessionSt where
  cumulativeSpent : ℚ
  spentByMarket : List (String × ℚ)
  skippedCount : ℕ
deriving DecidableEq, Repr

/-- Market info from the market cache (name, slug, tags). -/
structure MarketInfo where
  name : String
  slug : String
  tags : List String
deriving DecidableEq, Repr

/-- Notifications sent to the Discord channel by the trade handler. -/
inductive Notice where
  | maxOddsSkip
  | marketCapSkip (current planned cap : ℚ)
  | totalLimitStop (cumulative limit : ℚ)
  | tradeEmbed (success : Bool) (amt : ℚ)
deriving DecidableEq, Repr

/-- Lookup `spentByMarket.get(slug) ?? 0` on the insertion-ordered map. -/
def lookupSpent (m : List (String × ℚ)) (slug : String) : ℚ :=
  match m.find? (fun e => e.1 == slug) with
  | some e => e.2
  | none => 0

/-- Update `spentByMarket.set(slug, v)`: overwrite in place if present, else append
(JS `Map` insertion-order semantics). -/
def setSpent (m : List (String × ℚ)) (slug : String) (v : ℚ) : List (String × ℚ) :=
  if m.any (fun e => e.1 == slug) then
    m.map (fun e => if e.1 = slug then (slug, v) else e)
  else
    m ++ [(slug, v)]

/-- The planned-copy computation of the session itself (session.ts:296-301). -/
def plannedCopyUsdc (trade : ActivityTrade) (cfg : SessionConfig) : ℚ :=
  let planned := trade.size * trade.price * cfg.sizeScale
  if planned > cfg.maxSizePerTrade then cfg.maxSizePerTrade else planned

/-- Dry-run copy amount, recomputed in the dry-run branch (session.ts:366-369). -/
def dryRunCopy (trade : ActivityTrade) (cfg : SessionConfig) : ℚ :=
  let a := trade.size * trade.price * cfg.sizeScale
  if a > cfg.maxSizePerTrade then cfg.maxSizePerTrade else a

/-- Max-odds gate condition (session.ts:223-227):
`config.maxOdds !== undefined && trade.side === BUY && trade.price > config.maxOdds`. -/
def maxOddsTriggered (cfg : SessionConfig) (trade : ActivityTrade) : Bool :=
  match cfg.maxOdds with
  | some mo => decide (trade.side = .BUY) && decide (trade.price > mo)
  | none => false

/-- Category gate condition (session.ts:268-293): an allow-list is configured
and non-empty, and no configured category appears among the lowercased
market tags. -/
def categoryRejected (cfg : SessionConfig) (info : MarketInfo) : Bool :=
  match cfg.categories with
  | some cats =>
    !cats.isEmpty && !(cats.any (fun c => (info.tags.map String.toLower).contains c))
  | none => false

/-- Per-market cap gate condition (session.ts:305-314). -/
def marketCapTriggered (cfg : SessionConfig) (trade : ActivityTrade) (info : MarketInfo)
    (act : Option SessionSt) : Bool :=
  match cfg.maxTotalPerMarket, act with
  | some cap, some st =>
    decide (trade.side = .BUY) &&
      decide (lookupSpent st.spentByMarket info.slug + plannedCopyUsdc trade cfg > cap)
  | _, _ => false

/-- Guarded skip-counter bump, `if (this.activeSession) this.activeSession.skippedCount++`. -/
def bumpSkip : Option SessionSt → Option SessionSt
  | some st => some { st with skippedCount := st.skippedCount + 1 }
  | none => none

/-- The execution result the tracking section sees (session.ts:362-378): the
synthetic dry-run result, or the result of the executor in live mode. -/
def effectiveResult (cfg : SessionConfig) (trade : ActivityTrade)
    (liveResult : ExecutionResult) : ExecutionResult :=
  if cfg.dryRun then ⟨true, dryRunCopy trade cfg, none, none⟩ else liveResult

/-- Spend tracking on the no-breach path (session.ts:406-421): always add to
`cumulativeSpent`; add to the per-market map only for BUY. -/
def trackSpend (st : SessionSt) (trade : ActivityTrade) (info : MarketInfo) (amt : ℚ) :
    SessionSt :=
  { st with
    cumulativeSpent := st.cumulativeSpent + amt
    spentByMarket :=
      if trade.side = .BUY then
        setSpent st.spentByMarket info.slug (lookupSpent st.spentByMarket info.slug + amt)
      else st.spentByMarket }

/-- Result of one `handleTrade` invocation: the (possibly updated) active
session counters, whether `stop()` was invoked, and the notices sent. -/
structure HandleResult where
  act : Option SessionSt
  stopped : Bool
  notes : List Notice
deriving DecidableEq, Repr

/-- Method `CopyTradingSession.handleTrade` (session.ts:217-463) as a pure
transition.  External inputs: the cached `MarketInfo` and (in live mode) the
`ExecutionResult` of the executor.  The tracking section runs only under
`config.totalLimit && this.activeSession` (JS truthiness: `some 0` is
falsy); a breach notifies and requests `stop()` without adding the amount. -/
def handleTrade (cfg : SessionConfig) (trade : ActivityTrade) (info : MarketInfo)
    (liveResult : ExecutionResult) (act : Option SessionSt) : HandleResult :=
  if maxOddsTriggered cfg trade then
    ⟨bumpSkip act, false, [.maxOddsSkip]⟩
  else if categoryRejected cfg info then
    ⟨bumpSkip act, false, []⟩
  else if marketCapTriggered cfg trade info act then
    ⟨bumpSkip act, false,
      [.marketCapSkip
        (match act with
          | some st => lookupSpent st.spentByMarket info.slug
          | none => 0)
        (plannedCopyUsdc trade cfg) (cfg.maxTotalPerMarket.getD 0)]⟩
  else
    let result := effectiveResult cfg trade liveResult
    let amt := result.copyUsdcAmount
    match cfg.totalLimit, act with
    | some limit, some st =>
      if limit ≠ 0 then
        if st.cumulativeSpent + amt > limit then
          ⟨act, true, [.totalLimitStop st.cumulativeSpent limit]⟩
        else
          ⟨some (trackSpend st trade info amt), false, [.tradeEmbed result.success amt]⟩
      else
        ⟨act, false, [.tradeEmbed result.success amt]⟩
    | _, _ => ⟨act, false, [.tradeEmbed result.success amt]⟩

/-- Method `CopyTradingSession.isSeenTransaction` (session.ts:105-120): membership
test with insert-then-evict-oldest at capacity 2000; the eviction is guarded
by JS truthiness of the first iterated element (`if (firstItem)`). -/
def isSeenTransaction (seen : List String) (tx : String) : Bool × List String :=
  if tx ∈ seen then (true, seen)
  else
    let s2 := seen ++ [tx]
    if 2000 < s2.length then
      match s2.head? with
      | some first => if first = "" then (false, s2) else (false, s2.erase first)
      | none => (false, s2)
    else (false, s2)

/-- The machine-level state of the session manager: the active session counters,
the dedupe set, and whether the feed subscription is live. -/
structure Machine where
  active : Option SessionSt
  seen : List String
  subscribed : Bool
deriving DecidableEq, Repr

/-- Method `CopyTradingSession.stop` (session.ts:194-212): unsubscribe, discard the
session state, clear the dedupe set; a no-op when already Idle. -/
def stopMachine (m : Machine) : Machine :=
  match m.active with
  | none => m
  | some _ => ⟨none, [], false⟩

/-- Fresh machine created by `start` (session.ts:170-177). -/
def startMachine : Machine := ⟨some ⟨0, [], 0⟩, [], true⟩

/-- The feed callback (session.ts:146-162) plus delivery semantics: an
unsubscribed machine receives nothing; otherwise filter by trader address
(case-insensitive, empty address is falsy), dedupe by transaction hash, and
run `handleTrade`, applying `stop()` if it requested one. -/
def deliver (cfg : SessionConfig) (m : Machine) (trade : ActivityTrade)
    (info : MarketInfo) (liveResult : ExecutionResult) : Machine × List Notice :=
  if m.subscribed = false then (m, [])
  else if trade.traderAddress = "" ∨
      trade.traderAddress.toLower ≠ cfg.targetAddress.toLower then (m, [])
  else
    let step := isSeenTransaction m.seen trade.transactionHash
    let m2 : Machine := ⟨m.active, step.2, m.subscribed⟩
    if step.1 then (m2, [])
    else
      let r := handleTrade cfg trade info liveResult m2.active
      if r.stopped then (stopMachine ⟨r.act, m2.seen, m2.subscribed⟩, r.notes)
      else (⟨r.act, m2.seen, m2.subscribed⟩, r.notes)

/-- The `CopyTradingConfig` the session hands to the executor (session.ts:354-360). -/
def toCopyConfig (cfg : SessionConfig) : CopyTradingConfig :=
  ⟨cfg.sizeScale, cfg.maxSizePerTrade, cfg.minTradeSize, cfg.maxSlippage, cfg.orderType⟩

/-- The amount field reaching the market-order constructor, if that path was taken. -/
def marketAmount : ConstructedOrder → Option ℚ
  | .market args _ => some args.amount
  | .limit _ => none

/-! ## Concrete fixtures used by counterexamples and witnesses -/

/-- A BUY trade with leader notional $3 (spec scenario 5). -/
def cTrade6 : ActivityTrade := ⟨"0xtx1", "0xaaa", .BUY, "YES", "mkt", "ev", 3/10, 10⟩

/-- Executor config: sizeScale 0.1, maxSizePerTrade 10, minTradeSize 5. -/
def cEcfg6 : CopyTradingConfig := ⟨1/10, 10, 5, 3/100, .FOK⟩

/-- Live-mode session config matching `cEcfg6`, with no optional gates. -/
def cScfg6 : SessionConfig :=
  ⟨"0xaaa", "chan", false, 1/10, 10, 3/100, 5, .FOK, none, none, none, none⟩

/-- Market info fixture. -/
def cInfo : MarketInfo := ⟨"Market", "mkt", []⟩

/-- Metadata fixture (tick size 0.01). -/
def cMeta : MarketMetadata := ⟨"tok", .t2, false, "Q", "cond"⟩

/-- A dry-run session config with no `totalLimit` configured. -/
def cScfg1 : SessionConfig :=
  ⟨"0xaaa", "chan", true, 1/10, 10, 3/100, 5, .FOK, none, none, none, none⟩

/-- A BUY trade with leader notional $65, planned copy $6.50. -/
def cTrade1 : ActivityTrade := ⟨"0xtx2", "0xaaa", .BUY, "YES", "mkt", "ev", 13/20, 100⟩

/-- A placeholder live result (ignored by the dry-run branch). -/
def rDummy : ExecutionResult := ⟨false, 0, none, none⟩

/-- A successful order response fixture. -/
def respOk : OrderResponse := ⟨true, some "o", none, none, some .FOK⟩

/-- Dry-run session config with totalLimit $100, sizeScale 1, max $10/trade. -/
def cScfg2 : SessionConfig :=
  ⟨"0xaaa", "chan", true, 1, 10, 3/100, 5, .FOK, none, some 100, none, none⟩

/-- A BUY trade whose planned copy is clamped to $10 under `cScfg2`. -/
def cTrade2 : ActivityTrade := ⟨"0xtx3", "0xaaa", .BUY, "YES", "mkt", "ev", 13/20, 100⟩

/-- Session counters with $95 already spent. -/
def st95 : SessionSt := ⟨95, [], 0⟩

/-! # Theorems -/

/-- Helper: the clamp-down pattern `if a > b then b else a` is `min a b`. -/
theorem ite_gt_eq_min (a b : ℚ) : (if a > b then b else a) = min a b := by
  split_ifs with h
  · exact (min_eq_right h.le).symm
  · exact (min_eq_left (not_lt.mp h)).symm

/-- C3: for a trade with positive size and price in (0,1) and a config with
sizeScale in (0,1] and positive maxSizePerTrade, the copy amount of the
executor, the planned copy amount of the session, and the dry-run copy amount all equal
min(size × price × sizeScale, maxSizePerTrade), which is nonnegative. -/
theorem c3_planned_copy_eq_min (trade : ActivityTrade) (cfg : SessionConfig)
    (hsize : 0 < trade.size) (hp0 : 0 < trade.price) (hp1 : trade.price < 1)
    (hs0 : 0 < cfg.sizeScale) (hs1 : cfg.sizeScale ≤ 1) (hm : 0 < cfg.maxSizePerTrade) :
    copyUsdc trade (toCopyConfig cfg) =
      min (trade.size * trade.price * cfg.sizeScale) cfg.maxSizePerTrade ∧
    plannedCopyUsdc trade cfg = copyUsdc trade (toCopyConfig cfg) ∧
    dryRunCopy trade cfg = copyUsdc trade (toCopyConfig cfg) ∧
    0 ≤ copyUsdc trade (toCopyConfig cfg) := by
  have h1 : copyUsdc trade (toCopyConfig cfg) =
      min (trade.size * trade.price * cfg.sizeScale) cfg.maxSizePerTrade := by
    simp only [copyUsdc, leaderNotional, toCopyConfig]
    exact ite_gt_eq_min _ _
  refine ⟨h1, rfl, rfl, ?_⟩
  rw [h1]
  exact le_min (by positivity) hm.le

/-- C3 witness: the scenario-1 numbers of the spec (100 shares @ $0.65,
sizeScale 0.1, maxSizePerTrade 10) give a planned copy of $6.50. -/
theorem c3_planned_copy_eq_min_witness :
    copyUsdc cTrade1 (toCopyConfig cScfg1) =
      min (cTrade1.size * cTrade1.price * cScfg1.sizeScale) cScfg1.maxSizePerTrade ∧
    plannedCopyUsdc cTrade1 cScfg1 = copyUsdc cTrade1 (toCopyConfig cScfg1) :=
  ⟨(c3_planned_copy_eq_min cTrade1 cScfg1 (by norm_num [cTrade1]) (by norm_num [cTrade1])
      (by norm_num [cTrade1]) (by norm_num [cScfg1]) (by norm_num [cScfg1])
      (by norm_num [cScfg1])).1,
    (c3_planned_copy_eq_min cTrade1 cScfg1 (by norm_num [cTrade1]) (by norm_num [cTrade1])
      (by norm_num [cTrade1]) (by norm_num [cScfg1]) (by norm_num [cScfg1])
      (by norm_num [cScfg1])).2.1⟩

/-- C4 counterexample: at observed price 0.654, slippage 0 (≥ 0 as the claim
allows) and tick size 0.01, the BUY-adjusted price rounds to the nearest
tick 0.65, which is strictly below the observed price — refuting
"the resulting adjusted price is ≥ the observed price for BUY". -/
theorem c4_counterexample :
    (0 : ℚ) < 327/500 ∧ (327/500 : ℚ) < 1 ∧ (0 : ℚ) ≤ 0 ∧ (0 : ℚ) < 1/100 ∧
    adjustedPrice .BUY (327/500) 0 (1/100) < 327/500 := by
  refine ⟨by norm_num, by norm_num, le_refl 0, by norm_num, ?_⟩
  have hdiv : adjustedPriceRaw .BUY (327/500 : ℚ) 0 / (1/100) = 327/5 := by
    simp only [adjustedPriceRaw]
    norm_num
  have hround : jsRound (327/5 : ℚ) = 65 := by
    unfold jsRound
    apply Int.floor_eq_iff.mpr
    constructor <;> norm_num
  simp only [adjustedPrice, hdiv, hround]
  norm_num [min_def, max_def]

/-- C4 amended: the slippage-adjusted price before tick rounding is ≥ the
observed price for BUY and ≤ it for SELL; after round-to-nearest-tick and
clamping to [0.01, 0.99], the BUY price is only guaranteed ≥
min(0.99, price − tick/2) and the SELL price ≤ max(0.01, price + tick/2)
(rounding may cross the observed price by up to half a tick, and the clamp
by more). -/
theorem c4_slippage_bounds (price slip tick : ℚ)
    (hp0 : 0 < price) (hp1 : price < 1) (hslip : 0 ≤ slip) (ht : 0 < tick) :
    price ≤ adjustedPriceRaw .BUY price slip ∧
    adjustedPriceRaw .SELL price slip ≤ price ∧
    min (99/100) (price - tick/2) ≤ adjustedPrice .BUY price slip tick ∧
    adjustedPrice .SELL price slip tick ≤ max (1/100) (price + tick/2) := by
  have hraw_buy : price ≤ adjustedPriceRaw .BUY price slip := by
    simp only [adjustedPriceRaw]
    nlinarith
  have hraw_sell : adjustedPriceRaw .SELL price slip ≤ price := by
    simp only [adjustedPriceRaw]
    nlinarith
  refine ⟨hraw_buy, hraw_sell, ?_, ?_⟩
  · set y := adjustedPriceRaw .BUY price slip / tick with hy
    have hyt : y * tick = adjustedPriceRaw .BUY price slip := div_mul_cancel₀ _ ht.ne'
    have h1 : (y - 1/2 : ℚ) < (jsRound y : ℚ) := by
      have h := Int.sub_one_lt_floor (y + 1/2)
      unfold jsRound
      push_cast at h
      linarith
    have h2 : price - tick/2 ≤ (jsRound y : ℚ) * tick := by
      have hmul := mul_lt_mul_of_pos_right h1 ht
      have hexp : (y - 1/2) * tick = y * tick - tick/2 := by ring
      rw [hexp, hyt] at hmul
      linarith
    simp only [adjustedPrice]
    calc min (99/100) (price - tick/2)
        ≤ min (99/100) ((jsRound y : ℚ) * tick) := min_le_min le_rfl h2
      _ ≤ max (1/100) (min (99/100) ((jsRound y : ℚ) * tick)) := le_max_right _ _
  · set y := adjustedPriceRaw .SELL price slip / tick with hy
    have hyt : y * tick = adjustedPriceRaw .SELL price slip := div_mul_cancel₀ _ ht.ne'
    have h1 : (jsRound y : ℚ) ≤ y + 1/2 := by
      have h := Int.floor_le (y + 1/2)
      unfold jsRound
      push_cast at h
      linarith
    have h2 : (jsRound y : ℚ) * tick ≤ price + tick/2 := by
      have hmul := mul_le_mul_of_nonneg_right h1 ht.le
      have hexp : (y + 1/2) * tick = y * tick + tick/2 := by ring
      rw [hexp, hyt] at hmul
      linarith
    simp only [adjustedPrice]
    calc max (1/100) (min (99/100) ((jsRound y : ℚ) * tick))
        ≤ max (1/100) ((jsRound y : ℚ) * tick) := max_le_max le_rfl (min_le_right _ _)
      _ ≤ max (1/100) (price + tick/2) := max_le_max le_rfl h2

/-- C4 amended witness: the bounds instantiated at price 0.65, slippage 0.03,
tick 0.01 (spec scenario 2). -/
theorem c4_slippage_bounds_witness :
    (13/20 : ℚ) ≤ adjustedPriceRaw .BUY (13/20) (3/100) ∧
    min (99/100) ((13/20 : ℚ) - (1/100)/2) ≤ adjustedPrice .BUY (13/20) (3/100) (1/100) :=
  ⟨(c4_slippage_bounds (13/20) (3/100) (1/100) (by norm_num) (by norm_num)
      (by norm_num) (by norm_num)).1,
    (c4_slippage_bounds (13/20) (3/100) (1/100) (by norm_num) (by norm_num)
      (by norm_num) (by norm_num)).2.2.1⟩

/-- C5: the modelled market-BUY normalizer rounds the USDC amount down to 2
decimals first and independently of price (so USDC is never re-derived from
a rounded share count), the derived share count has at most 4 decimal
places, and the executor submits the USDC notional itself as the
market-order amount for FOK/FAK BUY intents. -/
theorem c5_market_buy_precision (u p : ℚ) :
    ((marketBuyNormalize u p).1 * 10 ^ 2).den = 1 ∧
    ((marketBuyNormalize u p).2 * 10 ^ 4).den = 1 ∧
    (marketBuyNormalize u p).1 = roundDown u 2 ∧
    (∀ q : ℚ, (marketBuyNormalize u q).1 = (marketBuyNormalize u p).1) ∧
    (∀ (trade : ActivityTrade) (cfg : CopyTradingConfig) (md : MarketMetadata),
      cfg.orderType = .FOK ∨ cfg.orderType = .FAK → trade.side = .BUY →
      marketAmount (constructOrder (executorOrderParams trade cfg md)) =
        some (copyUsdc trade cfg)) := by
  have hden : ∀ (x : ℚ) (n : ℕ), (roundDown x n * 10 ^ n).den = 1 := by
    intro x n
    unfold roundDown
    rw [div_mul_cancel₀]
    · exact Rat.den_intCast _
    · positivity
  refine ⟨hden u 2, hden _ 4, rfl, fun q => rfl, ?_⟩
  intro trade cfg md hot hside
  simp only [executorOrderParams, constructOrder, marketAmount, hot, hside, if_pos,
    and_self, and_true, true_and]

/-- C5 witness: the precision facts at the scenario-4 numbers of the spec
($2.0448 at price $0.64), and the executor FOK/FAK BUY routing on the
concrete fixtures. -/
theorem c5_market_buy_precision_witness :
    ((marketBuyNormalize (2556/1250) (16/25)).1 * 10 ^ 2).den = 1 ∧
    marketAmount (constructOrder (executorOrderParams cTrade6 cEcfg6 cMeta)) =
      some (copyUsdc cTrade6 cEcfg6) :=
  ⟨(c5_market_buy_precision (2556/1250) (16/25)).1,
    (c5_market_buy_precision (2556/1250) (16/25)).2.2.2.2 cTrade6 cEcfg6 cMeta
      (Or.inl rfl) rfl⟩

/-- C9: a repeated identifier is silently dropped (both at the set level and
at the delivery level, where it produces no state change and no notice);
a fresh identifier is appended, evicting the oldest entry when the set
already holds 2000; with nonempty identifiers the set never exceeds 2000;
and stopping an active session clears the set. -/
theorem c9_dedupe_bounded (seen : List String) (tx : String) :
    (tx ∈ seen → isSeenTransaction seen tx = (true, seen)) ∧
    (tx ∉ seen → seen.length < 2000 → isSeenTransaction seen tx = (false, seen ++ [tx])) ∧
    (tx ∉ seen → seen.length = 2000 → seen.head? ≠ some "" →
      isSeenTransaction seen tx = (false, (seen ++ [tx]).tail)) ∧
    ((∀ s ∈ seen, s ≠ "") → seen.length ≤ 2000 →
      ((isSeenTransaction seen tx).2).length ≤ 2000) ∧
    (∀ (cfg : SessionConfig) (m : Machine) (info : MarketInfo) (res : ExecutionResult)
      (trade : ActivityTrade), m.subscribed = true → trade.transactionHash ∈ m.seen →
      trade.traderAddress ≠ "" → trade.traderAddress.toLower = cfg.targetAddress.toLower →
      deliver cfg m trade info res = (m, [])) ∧
    (∀ (m : Machine) (st : SessionSt), m.active = some st → (stopMachine m).seen = []) := by
  have hmem : ∀ (s : List String) (t : String), t ∈ s → isSeenTransaction s t = (true, s) := by
    intro s t h
    simp [isSeenTransaction, h]
  have hfresh : ∀ (s : List String) (t : String), t ∉ s → s.length < 2000 →
      isSeenTransaction s t = (false, s ++ [t]) := by
    intro s t h hlen
    rw [isSeenTransaction, if_neg h, if_neg]
    simp only [List.length_append, List.length_singleton]
    omega
  have hevict : ∀ (s : List String) (t : String), t ∉ s → s.length = 2000 →
      s.head? ≠ some "" → isSeenTransaction s t = (false, (s ++ [t]).tail) := by
    intro s t h hlen hhd
    cases s with
    | nil => simp at hlen
    | cons a rest =>
      have ha : a ≠ "" := by
        intro hcontr
        exact hhd (by simp [hcontr])
      rw [isSeenTransaction, if_neg h, if_pos]
      · simp only [List.cons_append, List.head?_cons]
        rw [if_neg ha]
        simp [List.erase_cons_head]
      · simp only [List.cons_append, List.length_cons, List.length_append,
          List.length_singleton]
        simp only [List.length_cons] at hlen
        omega
  refine ⟨hmem seen tx, hfresh seen tx, hevict seen tx, ?_, ?_, ?_⟩
  · intro hne hlen
    by_cases h : tx ∈ seen
    · rw [hmem seen tx h]
      exact hlen
    · rcases lt_or_eq_of_le hlen with hlt | heq
      · rw [hfresh seen tx h hlt]
        simp only [List.length_append, List.length_singleton]
        omega
      · have hhd : seen.head? ≠ some "" := by
          cases seen with
          | nil => simp
          | cons a rest =>
            have := hne a (by simp)
            simp [this]
        rw [hevict seen tx h heq hhd]
        cases seen with
        | nil => simp at heq
        | cons a rest =>
          simp only [List.cons_append, List.tail_cons, List.length_append,
            List.length_singleton]
          simp only [List.length_cons] at heq
          omega
  · intro cfg m info res trade hsub hdup haddr haddr2
    rw [deliver, if_neg (by simp [hsub]), if_neg (by simp [haddr, haddr2])]
    simp [hmem m.seen trade.transactionHash hdup]
  · intro m st hact
    simp [stopMachine, hact]

/-- C9 witness: a duplicate identifier is returned unchanged, a stop on an
active machine clears the set. -/
theorem c9_dedupe_bounded_witness :
    isSeenTransaction ["0xtx1"] "0xtx1" = (true, ["0xtx1"]) ∧
    (stopMachine ⟨some ⟨0, [], 0⟩, ["0xtx1"], true⟩).seen = [] :=
  ⟨(c9_dedupe_bounded ["0xtx1"] "0xtx1").1 (by simp),
    (c9_dedupe_bounded ["0xtx1"] "0xtx1").2.2.2.2.2 ⟨some ⟨0, [], 0⟩, ["0xtx1"], true⟩
      ⟨0, [], 0⟩ rfl⟩

/-- C8 counterexample: a response with no transport error, `success=false`
and a logical `errorMsg` ("insufficient balance") is surfaced with that
message, not with the default "unknown error" message the claim asserts. -/
theorem c8_counterexample :
    classifyPostResponse ⟨none, false, none, some "insufficient balance", []⟩ .FOK =
      ⟨false, none, none, some "insufficient balance", some .FOK⟩ ∧
    ("insufficient balance" : String) ≠ "Unknown error - no orderID returned" := by
  exact ⟨rfl, by decide⟩

/-- C8 amended: transport error ⇒ its message verbatim with success=false;
not-success or missing orderID ⇒ success=false with the response
`errorMsg` when present and the default "Unknown error - no orderID
returned" only as fallback; otherwise success=true with the order id and
first settlement hash; the three classifications are mutually exclusive
and exhaustive. -/
theorem c8_response_classification (resp : PostOrderResponse) (kind : OrderKind) :
    (∀ e, resp.error = some e →
      classifyPostResponse resp kind = ⟨false, none, none, some e, some kind⟩) ∧
    (resp.error = none → resp.success = false ∨ resp.orderID = none →
      classifyPostResponse resp kind =
        ⟨false, none, none,
          some (resp.errorMsg.getD "Unknown error - no orderID returned"), some kind⟩) ∧
    (∀ oid, resp.error = none → resp.success = true → resp.orderID = some oid →
      classifyPostResponse resp kind =
        ⟨true, some oid, resp.transactionsHashes.head?, none, some kind⟩) ∧
    (resp.error ≠ none ∨ (resp.error = none ∧ (resp.success = false ∨ resp.orderID = none)) ∨
      (resp.error = none ∧ resp.success = true ∧ resp.orderID ≠ none)) ∧
    ¬((resp.success = false ∨ resp.orderID = none) ∧
      (resp.success = true ∧ resp.orderID ≠ none)) := by
  refine ⟨?_, ?_, ?_, ?_, ?_⟩
  · intro e he
    simp [classifyPostResponse, he]
  · intro he hns
    simp [classifyPostResponse, he, hns]
  · intro oid he hs hid
    simp [classifyPostResponse, he, hs, hid]
  · rcases he : resp.error with _ | e
    · cases hs : resp.success with
      | false => exact Or.inr (Or.inl ⟨rfl, Or.inl rfl⟩)
      | true =>
        cases hid : resp.orderID with
        | none => exact Or.inr (Or.inl ⟨rfl, Or.inr rfl⟩)
        | some oid => exact Or.inr (Or.inr ⟨rfl, rfl, by simp⟩)
    · exact Or.inl (by simp [he])
  · rintro ⟨h1 | h1, h2, h3⟩
    · rw [h2] at h1
      exact Bool.true_eq_false.mp h1
    · exact h3 h1

/-- C8 witness: the classification applied to a transport-error response and
to a successful response. -/
theorem c8_response_classification_witness :
    classifyPostResponse ⟨some "timeout", false, none, none, []⟩ .FAK =
      ⟨false, none, none, some "timeout", some .FAK⟩ ∧
    classifyPostResponse ⟨none, true, some "ord1", none, ["0xhash"]⟩ .FOK =
      ⟨true, some "ord1", some "0xhash", none, some .FOK⟩ :=
  ⟨(c8_response_classification ⟨some "timeout", false, none, none, []⟩ .FAK).1 "timeout" rfl,
    (c8_response_classification ⟨none, true, some "ord1", none, ["0xhash"]⟩ .FOK).2.2.1 "ord1"
      rfl rfl rfl⟩

/-- C7 counterexample: a GTC order intent is routed through the limit-order
constructor with expiration 0, and the tick size is NOT passed to the
signing capability — refuting "tick size and negative-risk context are
passed through to the signing capability" for the GTC path. -/
theorem c7_counterexample :
    constructOrder ⟨"tok", .BUY, 1/2, 3, .t2, true, .GTC, none⟩ =
      .limit ⟨"tok", 1/2, 3, .BUY, 0, 0⟩ ∧
    routedTickSize (constructOrder ⟨"tok", .BUY, 1/2, 3, .t2, true, .GTC, none⟩) = none ∧
    routedNegRisk (constructOrder ⟨"tok", .BUY, 1/2, 3, .t2, true, .GTC, none⟩) = none ∧
    (none : Option TickSize) ≠ some .t2 ∧ (none : Option Bool) ≠ some true := by
  exact ⟨rfl, rfl, rfl, by decide, by decide⟩

/-- C7 amended: FOK/FAK intents go through the market-order constructor —
amount is the USDC notional for BUY when `usdcAmount` is supplied (the
executor supplies it exactly for FOK/FAK BUY) and the share count
otherwise — with tickSize and negRisk passed through unchanged; GTC intents
go through the limit-order constructor with explicit share size and
expiration 0, and tickSize/negRisk are NOT forwarded on that path. -/
theorem c7_order_routing (p : PlaceOrderParams) :
    (p.orderType = .FOK ∨ p.orderType = .FAK →
      (∀ u, p.side = .BUY → p.usdcAmount = some u →
        constructOrder p =
          .market ⟨p.tokenID, p.price, u, p.side, 0⟩ ⟨p.tickSize, p.negRisk⟩) ∧
      (p.side = .SELL →
        constructOrder p =
          .market ⟨p.tokenID, p.price, p.size, p.side, 0⟩ ⟨p.tickSize, p.negRisk⟩) ∧
      (p.usdcAmount = none →
        constructOrder p =
          .market ⟨p.tokenID, p.price, p.size, p.side, 0⟩ ⟨p.tickSize, p.negRisk⟩) ∧
      routedTickSize (constructOrder p) = some p.tickSize ∧
      routedNegRisk (constructOrder p) = some p.negRisk) ∧
    (p.orderType = .GTC →
      constructOrder p = .limit ⟨p.tokenID, p.price, p.size, p.side, 0, 0⟩ ∧
      routedTickSize (constructOrder p) = none ∧
      routedNegRisk (constructOrder p) = none) ∧
    (∀ (trade : ActivityTrade) (cfg : CopyTradingConfig) (md : MarketMetadata),
      (executorOrderParams trade cfg md).usdcAmount =
        if (cfg.orderType = .FOK ∨ cfg.orderType = .FAK) ∧ trade.side = .BUY then
          some (copyUsdc trade cfg)
        else none) := by
  refine ⟨?_, ?_, fun trade cfg md => rfl⟩
  · intro hot
    refine ⟨?_, ?_, ?_, ?_, ?_⟩
    · intro u hside hu
      simp [constructOrder, hot, hside, hu]
    · intro hside
      simp [constructOrder, hot, hside]
    · intro hu
      rcases hside : p.side with _ | _ <;> simp [constructOrder, hot, hu, hside]
    · simp [constructOrder, hot, routedTickSize]
    · simp [constructOrder, hot, routedNegRisk]
  · intro hgtc
    have hnot : ¬(p.orderType = .FOK ∨ p.orderType = .FAK) := by
      simp [hgtc]
    exact ⟨by simp [constructOrder, hnot], by simp [constructOrder, hnot, routedTickSize],
      by simp [constructOrder, hnot, routedNegRisk]⟩

/-- C7 amended witness: routing at a concrete FOK BUY intent with a USDC
amount, and at a concrete GTC intent. -/
theorem c7_order_routing_witness :
    constructOrder ⟨"tok", .BUY, 1/2, 3, .t2, true, .FOK, some 5⟩ =
      .market ⟨"tok", 1/2, 5, .BUY, 0⟩ ⟨.t2, true⟩ ∧
    constructOrder ⟨"tok", .SELL, 1/2, 3, .t2, true, .GTC, none⟩ =
      .limit ⟨"tok", 1/2, 3, .SELL, 0, 0⟩ :=
  ⟨((c7_order_routing ⟨"tok", .BUY, 1/2, 3, .t2, true, .FOK, some 5⟩).1
      (Or.inl rfl)).1 5 rfl rfl,
    ((c7_order_routing ⟨"tok", .SELL, 1/2, 3, .t2, true, .GTC, none⟩).2.1 rfl).1⟩

/-- C10: `execute` is a total function of the trade, config and external-call
outcomes; a thrown exception in metadata resolution or in the submission
call surfaces as success=false with copyUsdcAmount=0 (so it contributes
nothing to spend accounting done with the returned amount), a min-size
rejection returns success=false with copyUsdcAmount equal to the planned
notional, and a returned response propagates its success flag with the
planned notional. -/
theorem c10_execute_exception_safe (trade : ActivityTrade) (cfg : CopyTradingConfig)
    (resolveOut : Except String MarketMetadata) (placeOut : Except String OrderResponse) :
    (copyUsdc trade cfg < cfg.minTradeSize →
      execute trade cfg resolveOut placeOut =
        ⟨false, copyUsdc trade cfg, none,
          some (minSizeMsg (copyUsdc trade cfg) cfg.minTradeSize)⟩) ∧
    (∀ msg, ¬(copyUsdc trade cfg < cfg.minTradeSize) → resolveOut = .error msg →
      execute trade cfg resolveOut placeOut =
        ⟨false, 0, none, some (strOr msg "Unknown execution error")⟩) ∧
    (∀ msg md, ¬(copyUsdc trade cfg < cfg.minTradeSize) → resolveOut = .ok md →
      placeOut = .error msg →
      execute trade cfg resolveOut placeOut =
        ⟨false, 0, none, some (strOr msg "Unknown execution error")⟩) ∧
    (∀ resp md, ¬(copyUsdc trade cfg < cfg.minTradeSize) → resolveOut = .ok md →
      placeOut = .ok resp →
      execute trade cfg resolveOut placeOut =
        ⟨resp.success, copyUsdc trade cfg, some resp, resp.error⟩) := by
  refine ⟨?_, ?_, ?_, ?_⟩
  · intro h
    simp [execute, h]
  · intro msg h hres
    simp [execute, h, hres]
  · intro msg md h hres hplace
    simp [execute, h, hres, hplace]
  · intro resp md h hres hplace
    simp [execute, h, hres, hplace]

/-- C10 witness: a resolution failure at the concrete fixtures yields the
zero-amount failure result. -/
theorem c10_execute_exception_safe_witness :
    execute cTrade1 (toCopyConfig cScfg6) (.error "Market not found: mkt")
        (.ok ⟨true, some "o", none, none, some .FOK⟩) =
      ⟨false, 0, none, some (strOr "Market not found: mkt" "Unknown execution error")⟩ :=
  (c10_execute_exception_safe cTrade1 (toCopyConfig cScfg6) (.error "Market not found: mkt")
      (.ok ⟨true, some "o", none, none, some .FOK⟩)).2.1 "Market not found: mkt"
    (by norm_num [copyUsdc, leaderNotional, toCopyConfig, cTrade1, cScfg6]) rfl

/-- Helper: processing a fresh identifier reports it as unseen, in every
capacity branch. -/
theorem isSeen_fst_of_not_mem (s : List String) (t : String) (h : t ∉ s) :
    (isSeenTransaction s t).1 = false := by
  rw [isSeenTransaction, if_neg h]
  dsimp only
  split
  · split
    · split_ifs <;> rfl
    · rfl
  · rfl

/-- C6 counterexample: at the scenario-5 numbers of the spec (planned copy $0.30
below minTradeSize $5) the executor rejects without submitting, but the
session skip counter is NOT incremented (it stays 0, where the claim
requires an increment by exactly 1). -/
theorem c6_counterexample :
    copyUsdc cTrade6 cEcfg6 = 3/10 ∧
    (3/10 : ℚ) < cEcfg6.minTradeSize ∧
    (execute cTrade6 cEcfg6 (.ok cMeta) (.ok respOk)).success = false ∧
    (handleTrade cScfg6 cTrade6 cInfo (execute cTrade6 cEcfg6 (.ok cMeta) (.ok respOk))
        (some ⟨0, [], 0⟩)).act = some ⟨0, [], 0⟩ := by
  have hamt : copyUsdc cTrade6 cEcfg6 = 3/10 := by
    norm_num [copyUsdc, leaderNotional, cTrade6, cEcfg6]
  have hlt : copyUsdc cTrade6 cEcfg6 < cEcfg6.minTradeSize := by
    rw [hamt]
    norm_num [cEcfg6]
  refine ⟨hamt, by norm_num [cEcfg6], ?_, ?_⟩
  · simp [execute, hlt]
  · simp [handleTrade, maxOddsTriggered, categoryRejected, marketCapTriggered, cScfg6]

/-- C6 amended: a below-minimum planned copy is rejected by the executor
before any external call (the result is independent of both the resolution
and the submission oracles) with a distinguishable "too small" error message
and the planned — not zero — notional; the session skip counter is NOT
changed by this path (it counts only max-odds, category and per-market-cap
skips); and in dry-run mode the min-size gate is never evaluated (the
synthetic result succeeds regardless). -/
theorem c6_min_size_skip (trade : ActivityTrade) (cfg : CopyTradingConfig)
    (scfg : SessionConfig) (info : MarketInfo) (act : Option SessionSt)
    (r1 r2 : Except String MarketMetadata) (p1 p2 : Except String OrderResponse)
    (hmin : copyUsdc trade cfg < cfg.minTradeSize) :
    execute trade cfg r1 p1 =
      ⟨false, copyUsdc trade cfg, none,
        some (minSizeMsg (copyUsdc trade cfg) cfg.minTradeSize)⟩ ∧
    execute trade cfg r1 p1 = execute trade cfg r2 p2 ∧
    (maxOddsTriggered scfg trade = false → categoryRejected scfg info = false →
      marketCapTriggered scfg trade info act = false →
      ((handleTrade scfg trade info (execute trade cfg r1 p1) act).act).map
          (fun st => st.skippedCount) = act.map (fun st => st.skippedCount)) ∧
    (scfg.dryRun = true →
      (effectiveResult scfg trade (execute trade cfg r1 p1)).success = true) := by
  have hx : ∀ (r : Except String MarketMetadata) (p : Except String OrderResponse),
      execute trade cfg r p =
        ⟨false, copyUsdc trade cfg, none,
          some (minSizeMsg (copyUsdc trade cfg) cfg.minTradeSize)⟩ := by
    intro r p
    simp [execute, hmin]
  refine ⟨hx r1 p1, (hx r1 p1).trans (hx r2 p2).symm, ?_, ?_⟩
  · intro h1 h2 h3
    simp only [handleTrade, h1, h2, h3, Bool.false_eq_true, if_false]
    rcases htl : scfg.totalLimit with _ | L
    · rcases act with _ | st <;> simp
    · rcases act with _ | st
      · simp
      · dsimp only
        split_ifs with hL hgt <;> simp [trackSpend]
  · intro hd
    simp [effectiveResult, hd]

/-- C6 amended witness: the rejection and the unchanged skip counter at the
scenario-5 fixtures. -/
theorem c6_min_size_skip_witness :
    execute cTrade6 cEcfg6 (.ok cMeta) (.ok respOk) =
      ⟨false, copyUsdc cTrade6 cEcfg6, none,
        some (minSizeMsg (copyUsdc cTrade6 cEcfg6) cEcfg6.minTradeSize)⟩ ∧
    ((handleTrade cScfg6 cTrade6 cInfo (execute cTrade6 cEcfg6 (.ok cMeta) (.ok respOk))
        (some ⟨0, [], 0⟩)).act).map (fun st => st.skippedCount) =
      (some (⟨0, [], 0⟩ : SessionSt)).map (fun st => st.skippedCount) :=
  ⟨(c6_min_size_skip cTrade6 cEcfg6 cScfg6 cInfo (some ⟨0, [], 0⟩) (.ok cMeta) (.error "x")
      (.ok respOk) (.error "y")
      (by norm_num [copyUsdc, leaderNotional, cTrade6, cEcfg6])).1,
    (c6_min_size_skip cTrade6 cEcfg6 cScfg6 cInfo (some ⟨0, [], 0⟩) (.ok cMeta) (.error "x")
      (.ok respOk) (.error "y")
      (by norm_num [copyUsdc, leaderNotional, cTrade6, cEcfg6])).2.2.1 rfl rfl rfl⟩

/-- C1 counterexample: with no `totalLimit` configured, a dry-run BUY success
with a nonzero amount ($6.50) leaves the cumulative and per-market spend
untouched — refuting "this tracking happens regardless of whether a
session-total cap (totalLimit) is configured". -/
theorem c1_counterexample :
    cScfg1.totalLimit = none ∧
    cTrade1.side = .BUY ∧
    (effectiveResult cScfg1 cTrade1 rDummy).success = true ∧
    (effectiveResult cScfg1 cTrade1 rDummy).copyUsdcAmount = 13/2 ∧
    (13/2 : ℚ) ≠ 0 ∧
    (handleTrade cScfg1 cTrade1 cInfo rDummy (some ⟨0, [], 0⟩)).act = some ⟨0, [], 0⟩ := by
  refine ⟨rfl, rfl, ?_, ?_, by norm_num, ?_⟩
  · simp [effectiveResult, cScfg1]
  · norm_num [effectiveResult, dryRunCopy, cScfg1, cTrade1]
  · simp [handleTrade, maxOddsTriggered, categoryRejected, marketCapTriggered, cScfg1]

/-- C1 amended: spend is tracked only when a nonzero `totalLimit` is
configured; within the cap the event amount is added to `cumulativeSpent`
regardless of the result success flag and of the trade side, and to the
per-market map exactly when the side is BUY; with no (or zero) cap nothing
is tracked; and a cap breach stops the session without adding the amount. -/
theorem c1_spend_tracking (cfg : SessionConfig) (trade : ActivityTrade) (info : MarketInfo)
    (liveResult : ExecutionResult) (st : SessionSt)
    (h1 : maxOddsTriggered cfg trade = false)
    (h2 : categoryRejected cfg info = false)
    (h3 : marketCapTriggered cfg trade info (some st) = false) :
    (cfg.totalLimit = none →
      (handleTrade cfg trade info liveResult (some st)).act = some st ∧
      (handleTrade cfg trade info liveResult (some st)).stopped = false) ∧
    (cfg.totalLimit = some 0 →
      (handleTrade cfg trade info liveResult (some st)).act = some st ∧
      (handleTrade cfg trade info liveResult (some st)).stopped = false) ∧
    (∀ L, cfg.totalLimit = some L → L ≠ 0 →
      st.cumulativeSpent + (effectiveResult cfg trade liveResult).copyUsdcAmount ≤ L →
      (handleTrade cfg trade info liveResult (some st)).act =
        some (trackSpend st trade info
          (effectiveResult cfg trade liveResult).copyUsdcAmount)) ∧
    (∀ L, cfg.totalLimit = some L → L ≠ 0 →
      L < st.cumulativeSpent + (effectiveResult cfg trade liveResult).copyUsdcAmount →
      (handleTrade cfg trade info liveResult (some st)).act = some st ∧
      (handleTrade cfg trade info liveResult (some st)).stopped = true) ∧
    (∀ amt, trade.side = .BUY →
      (trackSpend st trade info amt).cumulativeSpent = st.cumulativeSpent + amt ∧
      (trackSpend st trade info amt).spentByMarket =
        setSpent st.spentByMarket info.slug (lookupSpent st.spentByMarket info.slug + amt)) ∧
    (∀ amt, trade.side = .SELL →
      (trackSpend st trade info amt).cumulativeSpent = st.cumulativeSpent + amt ∧
      (trackSpend st trade info amt).spentByMarket = st.spentByMarket) := by
  refine ⟨?_, ?_, ?_, ?_, ?_, ?_⟩
  · intro h
    simp [handleTrade, h1, h2, h3, h]
  · intro h
    simp [handleTrade, h1, h2, h3, h]
  · intro L h hL hle
    simp [handleTrade, h1, h2, h3, h, hL, not_lt.mpr hle]
  · intro L h hL hgt
    simp [handleTrade, h1, h2, h3, h, hL, hgt]
  · intro amt hside
    simp [trackSpend, hside]
  · intro amt hside
    simp [trackSpend, hside]

/-- C1 amended witness: within-cap tracking at concrete fixtures (cumulative
$0, dry-run amount $6.50, totalLimit $100 via a config equal to `cScfg2`
except for the trade), and no tracking under `cScfg1` (no cap). -/
theorem c1_spend_tracking_witness :
    (handleTrade cScfg1 cTrade1 cInfo rDummy (some ⟨0, [], 0⟩)).act = some ⟨0, [], 0⟩ ∧
    (handleTrade cScfg2 cTrade2 cInfo rDummy (some ⟨0, [], 0⟩)).act =
      some (trackSpend ⟨0, [], 0⟩ cTrade2 cInfo
        (effectiveResult cScfg2 cTrade2 rDummy).copyUsdcAmount) :=
  ⟨((c1_spend_tracking cScfg1 cTrade1 cInfo rDummy ⟨0, [], 0⟩ rfl rfl rfl).1 rfl).1,
    (c1_spend_tracking cScfg2 cTrade2 cInfo rDummy ⟨0, [], 0⟩ rfl rfl rfl).2.2.1 100 rfl
      (by norm_num)
      (by norm_num [effectiveResult, dryRunCopy, cScfg2, cTrade2])⟩

/-- C2: with a nonzero `totalLimit` configured, an event whose amount would
push the cumulative spend past the cap stops the session — the machine goes
Idle (no active session), the feed is unsubscribed, the dedupe set is
cleared, the amount is not recorded anywhere, a stop notification carrying
the pre-breach cumulative is emitted, and the stopped machine processes no
further events; an event within the cap adds its amount to the cumulative
(and per-market, for BUY) spend and the session continues. -/
theorem c2_total_limit_stop (cfg : SessionConfig) (trade : ActivityTrade) (info : MarketInfo)
    (liveResult : ExecutionResult) (m : Machine) (st : SessionSt) (L : ℚ)
    (hsub : m.subscribed = true) (hact : m.active = some st)
    (hL : cfg.totalLimit = some L) (hL0 : L ≠ 0)
    (haddr : trade.traderAddress ≠ "")
    (haddr2 : trade.traderAddress.toLower = cfg.targetAddress.toLower)
    (hfresh : trade.transactionHash ∉ m.seen)
    (h1 : maxOddsTriggered cfg trade = false) (h2 : categoryRejected cfg info = false)
    (h3 : marketCapTriggered cfg trade info (some st) = false) :
    (L < st.cumulativeSpent + (effectiveResult cfg trade liveResult).copyUsdcAmount →
      deliver cfg m trade info liveResult =
        (⟨none, [], false⟩, [.totalLimitStop st.cumulativeSpent L]) ∧
      (∀ (trade2 : ActivityTrade) (info2 : MarketInfo) (res2 : ExecutionResult),
        deliver cfg ⟨none, [], false⟩ trade2 info2 res2 = (⟨none, [], false⟩, []))) ∧
    (st.cumulativeSpent + (effectiveResult cfg trade liveResult).copyUsdcAmount ≤ L →
      (deliver cfg m trade info liveResult).1.active =
        some (trackSpend st trade info
          (effectiveResult cfg trade liveResult).copyUsdcAmount) ∧
      (deliver cfg m trade info liveResult).1.subscribed = true) := by
  have hstep := isSeen_fst_of_not_mem m.seen trade.transactionHash hfresh
  constructor
  · intro hbreach
    have hht : handleTrade cfg trade info liveResult (some st) =
        ⟨some st, true, [.totalLimitStop st.cumulativeSpent L]⟩ := by
      simp [handleTrade, h1, h2, h3, hL, hL0, hbreach]
    constructor
    · rw [deliver, if_neg (by simp [hsub]), if_neg (by simp [haddr, haddr2])]
      simp [hstep, hact, hht, stopMachine]
    · intro trade2 info2 res2
      simp [deliver]
  · intro hle
    have hht : handleTrade cfg trade info liveResult (some st) =
        ⟨some (trackSpend st trade info
            (effectiveResult cfg trade liveResult).copyUsdcAmount), false,
          [.tradeEmbed (effectiveResult cfg trade liveResult).success
            (effectiveResult cfg trade liveResult).copyUsdcAmount]⟩ := by
      simp [handleTrade, h1, h2, h3, hL, hL0, not_lt.mpr hle]
    rw [deliver, if_neg (by simp [hsub]), if_neg (by simp [haddr, haddr2])]
    simp [hstep, hact, hht, hsub]

/-- C2 witness: the scenario-6 numbers of the spec — totalLimit $100, cumulative
$95, next BUY amount $10 — stop the machine, clear the dedupe set,
unsubscribe, emit the stop notice, and process nothing further. -/
theorem c2_total_limit_stop_witness :
    deliver cScfg2 ⟨some st95, [], true⟩ cTrade2 cInfo rDummy =
      (⟨none, [], false⟩, [.totalLimitStop 95 100]) ∧
    deliver cScfg2 ⟨none, [], false⟩ cTrade2 cInfo rDummy = (⟨none, [], false⟩, []) :=
  ⟨((c2_total_limit_stop cScfg2 cTrade2 cInfo rDummy ⟨some st95, [], true⟩ st95 100
      rfl rfl rfl (by norm_num) (by decide) rfl (by simp) rfl rfl rfl).1
      (by norm_num [effectiveResult, dryRunCopy, cScfg2, cTrade2, st95])).1,
    ((c2_total_limit_stop cScfg2 cTrade2 cInfo rDummy ⟨some st95, [], true⟩ st95 100
      rfl rfl rfl (by norm_num) (by decide) rfl (by simp) rfl rfl rfl).1
      (by norm_num [effectiveResult, dryRunCopy, cScfg2, cTrade2, st95])).2 cTrade2 cInfo
      rDummy⟩

end CopyBot
